import Mathlib

/-!
Verification of the DEEPAIDATAENG repository: a shallow embedding of the
dashboard notebook (`C1_W2_Dashboard.ipynb`) and of the Terraform fragment
declaring the AWS Glue resources, together with theorems settling the
specification's claims about them.

Embedding conventions:
* A row of the `product_sales_df` query result is a `SalesRow`; the
  `orderdate` column (a timestamp in the source) is embedded as an `Int`
  (any order-isomorphic encoding of timestamps, e.g. `YYYYMMDD`), since the
  code only compares order dates with `<=`/`>=`.
* `total_sales` (a numeric SQL aggregate) is embedded as `Int`.
* A pandas frame whose `orderdate` column has been dropped is a list of
  `FRow`; a column removed by a `groupby(...).sum().reset_index()`
  re-aggregation is recorded as `none`.  (In pandas, non-key non-numeric
  columns left over after a `groupby(...).sum()` are either dropped or
  concatenated depending on the pandas version; no later step of the
  notebook reads them — the plot reads `productname`/`total_sales` and the
  country filter reads `country` — so recording them as absent is
  observationally equivalent.)
* `groupby(keys).sum().reset_index()` is `groupbySum`: one output row per
  distinct key, carrying the sum of `total_sales` over the rows of the
  group.  pandas emits the groups sorted by key; the embedding keeps them
  in `List.dedup` order.  The two orders are permutations of each other and
  none of the verified properties (row membership, per-row totals, row
  counts, emptiness) depends on the order in which groups are listed.
* `sort_values("total_sales", ascending=False)` is an insertion sort with
  the descending comparator; `.head(top_n)` is `List.take`.
* The `sns.barplot`/`ax.set` plotting calls are an external effect that may
  raise; they are embedded as an arbitrary fallible function
  `plotCall : List FRow → Except String Unit` supplied as a parameter, and
  the `try`/`except` of the source becomes a `match` on its result.
* `print` output is captured in the `Output` type.
-/

/-- A row of the `product_sales_df` frame built by the third Athena query:
`orderDate, productLine, productName, country, SUM(orderAmount) AS total_sales`. -/
structure SalesRow where
  orderdate : Int
  productline : String
  productname : String
  country : String
  total_sales : Int
deriving DecidableEq, Repr

/-- A row of one of the intermediate frames of `plot_top_n_sales`: the
`orderdate` column has been dropped, and a column that has been removed by a
re-aggregation step is `none`. -/
structure FRow where
  productline : Option String
  productname : String
  country : Option String
  total_sales : Int
deriving DecidableEq, Repr

/-- Dropping the `orderdate` column (`filtered_df.drop('orderdate', axis=1)`),
rowwise. -/
def toFRow (r : SalesRow) : FRow :=
  { productline := some r.productline
    productname := r.productname
    country := some r.country
    total_sales := r.total_sales }

/-- Sum of the `total_sales` column of a raw frame. -/
def sumRows (l : List SalesRow) : Int :=
  (l.map SalesRow.total_sales).sum

/-- Sum of the `total_sales` column of an intermediate frame. -/
def sumSales (l : List FRow) : Int :=
  (l.map FRow.total_sales).sum

/-- `df.groupby(keys).sum().reset_index()`: one row per distinct key value,
holding the sum of `total_sales` over its group.  `keyOf` extracts the grouping
key of a row and `rebuild` rebuilds an output row from a key and a group sum. -/
def groupbySum {κ : Type} [DecidableEq κ]
    (keyOf : FRow → κ) (rebuild : κ → Int → FRow) (df : List FRow) : List FRow :=
  ((df.map keyOf).dedup).map fun k =>
    rebuild k (sumSales (df.filter fun r => keyOf r = k))

/-- Grouping key of `groupby(['productline', 'productname', 'country'])`. -/
def key3 (r : FRow) : Option String × String × Option String :=
  (r.productline, r.productname, r.country)

/-- Output row of `groupby(['productline', 'productname', 'country']).sum().reset_index()`. -/
def rebuild3 (k : Option String × String × Option String) (v : Int) : FRow :=
  { productline := k.1, productname := k.2.1, country := k.2.2, total_sales := v }

/-- Grouping key of `groupby(['productname', 'country'])`. -/
def key2 (r : FRow) : String × Option String :=
  (r.productname, r.country)

/-- Output row of `groupby(['productname', 'country']).sum().reset_index()`:
the `productline` column is no longer a grouping key. -/
def rebuild2 (k : String × Option String) (v : Int) : FRow :=
  { productline := none, productname := k.1, country := k.2, total_sales := v }

/-- Grouping key of `groupby(['productname'])`. -/
def key1 (r : FRow) : String :=
  r.productname

/-- Output row of `groupby(['productname']).sum().reset_index()`. -/
def rebuild1 (k : String) (v : Int) : FRow :=
  { productline := none, productname := k, country := none, total_sales := v }

/-- The date-range filter
`product_sales_df[(orderdate >= pd.Timestamp(start_date)) & (orderdate <= pd.Timestamp(end_date))]`. -/
def dateRangeFilter (df : List SalesRow) (start_date end_date : Int) : List SalesRow :=
  df.filter fun r => decide (start_date ≤ r.orderdate) && decide (r.orderdate ≤ end_date)

/-- `filtered_df.drop('orderdate', axis=1)`. -/
def dropOrderdate (df : List SalesRow) : List FRow :=
  df.map toFRow

/-- `filtered_df.groupby(['productline', 'productname', 'country']).sum().reset_index()`. -/
def groupAllKeys (df : List FRow) : List FRow :=
  groupbySum key3 rebuild3 df

/-- The product-line step: filter when a product line is chosen, otherwise
re-aggregate with the `productline` grouping key dropped. -/
def productlinePhase (productline : String) (df : List FRow) : List FRow :=
  if productline ≠ "ALL" then df.filter fun r => r.productline = some productline
  else groupbySum key2 rebuild2 df

/-- The country step: filter when a country is chosen, otherwise re-aggregate
with the `country` grouping key dropped. -/
def countryPhase (country : String) (df : List FRow) : List FRow :=
  if country ≠ "ALL" then df.filter fun r => r.country = some country
  else groupbySum key1 rebuild1 df

/-- The successive reassignments of `filtered_df` in `plot_top_n_sales`,
transcribed statement by statement: date-range filter, drop `orderdate`,
group by all three keys, then the product-line `if`/`else`, then the country
`if`/`else`. -/
def filteredAgg (product_sales_df : List SalesRow) (start_date end_date : Int)
    (country productline : String) : List FRow :=
  let filtered_df := product_sales_df.filter fun r =>
    decide (start_date ≤ r.orderdate) && decide (r.orderdate ≤ end_date)
  let filtered_df := filtered_df.map toFRow
  let filtered_df := groupbySum key3 rebuild3 filtered_df
  let filtered_df :=
    if productline ≠ "ALL" then filtered_df.filter fun r => r.productline = some productline
    else groupbySum key2 rebuild2 filtered_df
  let filtered_df :=
    if country ≠ "ALL" then filtered_df.filter fun r => r.country = some country
    else groupbySum key1 rebuild1 filtered_df
  filtered_df

/-- `filtered_df.sort_values("total_sales", ascending=False)`. -/
def sortSales (l : List FRow) : List FRow :=
  List.insertionSort (fun a b => b.total_sales ≤ a.total_sales) l

/-- The frame handed to `sns.barplot` when a plot happens:
`filtered_df.sort_values("total_sales", ascending=False).head(top_n)`,
or `none` when `filtered_df` is empty and no plot is attempted. -/
def plotData (product_sales_df : List SalesRow) (start_date end_date : Int)
    (country productline : String) (top_n : Nat) : Option (List FRow) :=
  let filtered_df := filteredAgg product_sales_df start_date end_date country productline
  if filtered_df.isEmpty then none
  else some ((sortSales filtered_df).take top_n)

/-- Observable outcome of one call of `plot_top_n_sales`: either a bar plot of
some rows was produced, or a message was printed. -/
inductive Output where
  | plot (rows : List FRow)
  | printed (msg : String)
deriving DecidableEq, Repr

/-- The message printed when the filtered frame is empty:
`f"There were no sales of {productline} to {country} during that period"`. -/
def noSalesMessage (productline country : String) : String :=
  "There were no sales of " ++ productline ++ " to " ++ country ++ " during that period"

/-- The whole of `plot_top_n_sales`: the `filtered_df` cascade, then
`if not (filtered_df.empty)` a `try`/`except print("error")` around the
plotting call on the sorted top-`top_n` rows, `else` the no-sales message. -/
def plot_top_n_sales (plotCall : List FRow → Except String Unit)
    (product_sales_df : List SalesRow) (start_date end_date : Int)
    (country productline : String) (top_n : Nat) : Output :=
  let filtered_df := filteredAgg product_sales_df start_date end_date country productline
  if !filtered_df.isEmpty then
    match plotCall ((sortSales filtered_df).take top_n) with
    | Except.ok _ => Output.plot ((sortSales filtered_df).take top_n)
    | Except.error _ => Output.printed "error"
  else
    Output.printed (noSalesMessage productline country)

/-- Number of distinct product names appearing in a frame. -/
def distinctProductCount (l : List FRow) : Nat :=
  ((l.map FRow.productname).dedup).length

/-- The notebook's global state visible to `plot_top_n_sales`: the
`product_sales_df` frame materialized by the third Athena query. -/
structure NotebookState where
  product_sales_df : List SalesRow
deriving DecidableEq, Repr

/-- One widget-driven invocation of `plot_top_n_sales`, with the notebook
state threaded explicitly.  Every pandas operation the function performs —
boolean-mask selection, `drop(axis=1)` (default `inplace=False`),
`groupby(...).sum().reset_index()`, `sort_values` (default `inplace=False`),
`head` — returns a new frame and leaves its input intact, so the call reads
the state and returns it unchanged. -/
def runDashboard (st : NotebookState) (plotCall : List FRow → Except String Unit)
    (start_date end_date : Int) (country productline : String) (top_n : Nat) :
    NotebookState × Output :=
  (st, plot_top_n_sales plotCall st.product_sales_df start_date end_date country productline top_n)

/-- The concrete two-row table used by the specification's worked example. -/
def exampleDf : List SalesRow :=
  [ { orderdate := 20240101, productline := "Motorcycles", productname := "P1"
      country := "USA", total_sales := 100 }
  , { orderdate := 20240201, productline := "Motorcycles", productname := "P1"
      country := "France", total_sales := 50 } ]

/-- The date-filtered input rows that the verification relates to an output
row `r`: rows carrying `r`'s product name that match the widget selections
(a selection of `"ALL"` matches every row). -/
def selMatch (productline country : String) (r : FRow) (x : SalesRow) : Bool :=
  x.productname == r.productname &&
  (productline == "ALL" || x.productline == productline) &&
  (country == "ALL" || x.country == country)

/-- Stated from the spec's words for `productline = "ALL"`: re-aggregation
after dropping the product-line grouping key — the date-filtered rows grouped
by `(productname, country)` with `total_sales` re-summed, restricted to the
chosen country. -/
def specAggAcrossProductLines (dateFiltered : List SalesRow) (country : String) : List FRow :=
  (groupbySum key2 rebuild2 (dateFiltered.map toFRow)).filter fun r => r.country = some country

/-- Stated from the spec's words for `country = "ALL"`: the date-filtered rows
of the chosen product line aggregated across all countries, one row per
product name. -/
def specAggAcrossCountries (dateFiltered : List SalesRow) (productline : String) : List FRow :=
  groupbySum key1 rebuild1
    ((dateFiltered.map toFRow).filter fun r => r.productline = some productline)

/-- Stated from the spec's words for both selections `"ALL"`: one row per
product name, summing over all product lines and countries. -/
def specAggAllProducts (dateFiltered : List SalesRow) : List FRow :=
  groupbySum key1 rebuild1 (dateFiltered.map toFRow)

/-- One ipywidgets control, as declared in the `widgets.interact` cell. -/
inductive Widget where
  | datePicker (description : String)
  | dropdown (options : List String) (value description : String)
  | intSlider (value minVal maxVal stepSize : Int) (description : String)
deriving DecidableEq, Repr

/-- `sorted(list(col.unique()))`: the distinct values of a column, sorted. -/
def sortedUnique (l : List String) : List String :=
  List.insertionSort (fun a b => a ≤ b) l.dedup

/-- The widget declarations of the `widgets.interact` cell, in source order:
two date pickers, the country and product-line dropdowns (options
`["ALL"] + sorted(unique)` with value `"ALL"`), and the Top N integer slider
`value=5, min=1, max=10, step=1`. -/
def dashboardWidgets (product_sales_df : List SalesRow) : List Widget :=
  [ Widget.datePicker "Start Date"
  , Widget.datePicker "End Date"
  , Widget.dropdown ("ALL" :: sortedUnique (product_sales_df.map SalesRow.country))
      "ALL" "Country"
  , Widget.dropdown ("ALL" :: sortedUnique (product_sales_df.map SalesRow.productline))
      "ALL" "Product Line"
  , Widget.intSlider 5 1 10 1 "Top N" ]

/-- Name of `aws_glue_catalog_database.ml_database`. -/
def ml_database_name (project : String) : String :=
  project ++ "-ml-db"

/-- Name of `aws_glue_connection.rds_connection`. -/
def rds_connection_name (project : String) : String :=
  project ++ "-rds-connection"

/-- The attributes of `aws_glue_crawler.s3_crawler` fixed by the IaC fragment. -/
structure GlueCrawler where
  name : String
  database_name : String
  s3_target_path : String
  recrawl_behavior : String
  delete_behavior : String
  update_behavior : String
deriving DecidableEq, Repr

/-- `aws_glue_crawler.s3_crawler`, as a function of the Terraform variables it
interpolates. -/
def s3_crawler (project data_lake_bucket : String) : GlueCrawler :=
  { name := project ++ "-ml-db-crawler"
    database_name := ml_database_name project
    s3_target_path := "s3://" ++ data_lake_bucket ++ "/gold"
    recrawl_behavior := "CRAWL_NEW_FOLDERS_ONLY"
    delete_behavior := "LOG"
    update_behavior := "LOG" }

/-- The attributes of `aws_glue_job.etl_job` fixed by the IaC fragment. -/
structure GlueJob where
  name : String
  glue_version : String
  connections : List String
  script_location : String
  python_version : Nat
  default_arguments : List (String × String)
  timeout : Nat
  number_of_workers : Nat
  worker_type : String
deriving DecidableEq, Repr

/-- `aws_glue_job.etl_job`, as a function of the Terraform variables it
interpolates.  `timeout` is in minutes, per the Terraform attribute. -/
def etl_job (project scripts_bucket scripts_key data_lake_bucket : String) : GlueJob :=
  { name := project ++ "-etl-job"
    glue_version := "4.0"
    connections := [rds_connection_name project]
    script_location := "s3://" ++ scripts_bucket ++ "/" ++ scripts_key
    python_version := 3
    default_arguments :=
      [ ("--enable-job-insights", "true")
      , ("--job-language", "python")
      , ("--glue_connection", rds_connection_name project)
      , ("--glue_database", ml_database_name project)
      , ("--target_path", "s3://" ++ data_lake_bucket) ]
    timeout := 5
    number_of_workers := 2
    worker_type := "G.1X" }

lemma filter_map_comm {α β : Type} (f : α → β) (q : β → Bool) (l : List α) :
    (l.map f).filter q = (l.filter fun x => q (f x)).map f := by
  induction l with
  | nil => rfl
  | cons a l ih =>
      simp only [List.map_cons, List.filter_cons]
      cases h : q (f a) <;> simp [h, ih]

lemma sumSales_map_toFRow (l : List SalesRow) : sumSales (l.map toFRow) = sumRows l := by
  simp only [sumSales, sumRows, List.map_map]
  rfl

lemma dedup_map_dedup {α β : Type} [DecidableEq α] [DecidableEq β] (g : α → β) (l : List α) :
    ((l.dedup).map g).dedup = (l.map g).dedup := by
  induction l with
  | nil => rfl
  | cons a l ih =>
      by_cases h : a ∈ l
      · rw [List.dedup_cons_of_mem h, ih, List.map_cons,
          List.dedup_cons_of_mem (List.mem_map_of_mem g h)]
      · rw [List.dedup_cons_of_not_mem h, List.map_cons, List.map_cons]
        by_cases hg : g a ∈ l.map g
        · have hg' : g a ∈ (l.dedup).map g := by
            obtain ⟨x, hx, hxe⟩ := List.mem_map.mp hg
            exact List.mem_map.mpr ⟨x, List.mem_dedup.mpr hx, hxe⟩
          rw [List.dedup_cons_of_mem hg', ih, List.dedup_cons_of_mem hg]
        · have hg' : g a ∉ (l.dedup).map g := by
            intro hmem
            obtain ⟨x, hx, hxe⟩ := List.mem_map.mp hmem
            exact hg (List.mem_map.mpr ⟨x, List.mem_dedup.mp hx, hxe⟩)
          rw [List.dedup_cons_of_not_mem hg', ih, List.dedup_cons_of_not_mem hg]

lemma dedup_filter {α : Type} [DecidableEq α] (p : α → Bool) (l : List α) :
    (l.filter p).dedup = l.dedup.filter p := by
  induction l with
  | nil => rfl
  | cons a l ih =>
      by_cases h : a ∈ l
      · rw [List.dedup_cons_of_mem h, ← ih]
        cases hp : p a
        · simp [List.filter_cons, hp]
        · have : a ∈ l.filter p := List.mem_filter.mpr ⟨h, hp⟩
          simp [List.filter_cons, hp, List.dedup_cons_of_mem this]
      · rw [List.dedup_cons_of_not_mem h]
        cases hp : p a
        · simp [List.filter_cons, hp, ih]
        · have : a ∉ l.filter p := fun hmem => h (List.mem_filter.mp hmem).1
          simp [List.filter_cons, hp, List.dedup_cons_of_not_mem this, ih]

lemma sum_map_filter_split {α : Type} (v : α → Int) (Q R : α → Bool) (l : List α) :
    ((l.filter Q).map v).sum =
      ((l.filter fun x => Q x && R x).map v).sum +
        ((l.filter fun x => Q x && !R x).map v).sum := by
  induction l with
  | nil => simp
  | cons a l ih =>
      cases hq : Q a <;> cases hr : R a <;> simp [List.filter_cons, hq, hr, ih] <;> ring

lemma sum_fibers {α κ : Type} [DecidableEq κ] (keyOf : α → κ) (v : α → Int) (p : κ → Bool)
    (ks : List κ) :
    ks.Nodup → ∀ l : List α,
      (∀ k ∈ ks, p k = true) →
      (∀ x ∈ l, p (keyOf x) = true → keyOf x ∈ ks) →
      (ks.map fun k => ((l.filter fun x => keyOf x = k).map v).sum).sum
        = ((l.filter fun x => p (keyOf x)).map v).sum := by
  induction ks with
  | nil =>
      intro _ l _ hcov
      have hnil : (l.filter fun x => p (keyOf x)) = [] := by
        rw [List.filter_eq_nil_iff]
        intro a ha hpa
        exact absurd (hcov a ha (by simpa using hpa)) (List.not_mem_nil _)
      simp [hnil]
  | cons k ks ih =>
      intro hnd l hp hcov
      have hk_ks : k ∉ ks := (List.nodup_cons.mp hnd).1
      have hnd' : ks.Nodup := (List.nodup_cons.mp hnd).2
      have hA : ∀ k' ∈ ks,
          ((l.filter fun x => !(decide (keyOf x = k))).filter fun x => keyOf x = k')
            = l.filter fun x => keyOf x = k' := by
        intro k' hk'
        have hkk' : k' ≠ k := fun hh => hk_ks (hh ▸ hk')
        rw [List.filter_filter]
        apply List.filter_congr
        intro x _
        by_cases hx : keyOf x = k'
        · simp [hx, hkk']
        · simp [hx]
      have hB := ih hnd' (l.filter fun x => !(decide (keyOf x = k)))
        (fun k' hk' => hp k' (List.mem_cons_of_mem _ hk'))
        (by
          intro x hx hpx
          have hxl : x ∈ l := (List.mem_filter.mp hx).1
          have hxk : ¬ (keyOf x = k) := by
            have := (List.mem_filter.mp hx).2
            simpa using this
          have := hcov x hxl hpx
          rcases List.mem_cons.mp this with h | h
          · exact absurd h hxk
          · exact h)
      have hC := sum_map_filter_split v (fun x => p (keyOf x)) (fun x => decide (keyOf x = k)) l
      have hC1 : (l.filter fun x => p (keyOf x) && decide (keyOf x = k))
          = l.filter fun x => keyOf x = k := by
        apply List.filter_congr
        intro x _
        by_cases hx : keyOf x = k
        · simp [hx, hp k (List.mem_cons_self k ks)]
        · simp [hx]
      have hC2 : (l.filter fun x => p (keyOf x) && !(decide (keyOf x = k)))
          = (l.filter fun x => !(decide (keyOf x = k))).filter fun x => p (keyOf x) := by
        rw [List.filter_filter]
      have hKs : (ks.map fun k' => ((l.filter fun x => keyOf x = k').map v).sum)
          = ks.map fun k' =>
              (((l.filter fun x => !(decide (keyOf x = k))).filter fun x => keyOf x = k').map v).sum :=
        List.map_congr_left (fun k' hk' => by rw [hA k' hk'])
      simp only [List.map_cons, List.sum_cons]
      rw [hKs, hB, hC, hC1, hC2]

lemma mem_groupbySum {κ : Type} [DecidableEq κ] {keyOf : FRow → κ} {rebuild : κ → Int → FRow}
    {df : List FRow} {r : FRow} :
    r ∈ groupbySum keyOf rebuild df ↔
      ∃ k, k ∈ (df.map keyOf).dedup ∧
        r = rebuild k (sumSales (df.filter fun x => keyOf x = k)) := by
  simp only [groupbySum, List.mem_map]
  constructor
  · rintro ⟨k, hk, rfl⟩
    exact ⟨k, hk, rfl⟩
  · rintro ⟨k, hk, rfl⟩
    exact ⟨k, hk, rfl⟩

lemma map_key_groupbySum {κ : Type} [DecidableEq κ] (keyOf : FRow → κ)
    (rebuild : κ → Int → FRow) (hk : ∀ k v, keyOf (rebuild k v) = k) (df : List FRow) :
    (groupbySum keyOf rebuild df).map keyOf = (df.map keyOf).dedup := by
  rw [groupbySum, List.map_map]
  have : ∀ k ∈ (df.map keyOf).dedup,
      (keyOf ∘ fun k => rebuild k (sumSales (df.filter fun r => keyOf r = k))) k = id k :=
    fun k _ => hk _ _
  rw [List.map_congr_left this, List.map_id]

lemma total_of_mem_groupbySum {κ : Type} [DecidableEq κ] {keyOf : FRow → κ}
    {rebuild : κ → Int → FRow} {df : List FRow} {r : FRow}
    (hk : ∀ k v, keyOf (rebuild k v) = k) (hv : ∀ k v, (rebuild k v).total_sales = v)
    (h : r ∈ groupbySum keyOf rebuild df) :
    r.total_sales = sumSales (df.filter fun x => keyOf x = keyOf r) ∧
      r = rebuild (keyOf r) r.total_sales := by
  obtain ⟨k, _, rfl⟩ := mem_groupbySum.mp h
  rw [hk, hv]
  exact ⟨rfl, rfl⟩

lemma filter_groupbySum {κ : Type} [DecidableEq κ] (keyOf : FRow → κ)
    (rebuild : κ → Int → FRow) (q : FRow → Bool) (qk : κ → Bool)
    (hq : ∀ k v, q (rebuild k v) = qk k) (hq2 : ∀ x, qk (keyOf x) = q x) (l : List FRow) :
    (groupbySum keyOf rebuild l).filter q = groupbySum keyOf rebuild (l.filter q) := by
  have hkeys : ((l.filter q).map keyOf).dedup = ((l.map keyOf).dedup).filter qk := by
    have h1 : l.filter q = l.filter fun x => qk (keyOf x) :=
      (List.filter_congr fun x _ => hq2 x).symm
    rw [h1, ← filter_map_comm keyOf qk l, dedup_filter]
  have hfib : ∀ k, qk k = true →
      ((l.filter q).filter fun x => keyOf x = k) = l.filter fun x => keyOf x = k := by
    intro k hqk
    rw [List.filter_filter]
    apply List.filter_congr
    intro x _
    by_cases hx : keyOf x = k
    · have : q x = true := by rw [← hq2, hx, hqk]
      simp [hx, this]
    · simp [hx]
  rw [groupbySum, groupbySum, filter_map_comm, hkeys]
  have hpt : ∀ k ∈ (l.map keyOf).dedup,
      (fun k => q (rebuild k (sumSales (l.filter fun r => keyOf r = k)))) k = qk k :=
    fun k _ => hq _ _
  rw [List.filter_congr hpt]
  apply List.map_congr_left
  intro k hk'
  have hqk : qk k = true := (List.mem_filter.mp hk').2
  rw [hfib k hqk]

lemma groupbySum_groupbySum {κf κc : Type} [DecidableEq κf] [DecidableEq κc]
    (key_f : FRow → κf) (rebuild_f : κf → Int → FRow)
    (key_c : FRow → κc) (rebuild_c : κc → Int → FRow) (π : κf → κc)
    (h1 : ∀ k v, key_c (rebuild_f k v) = π k)
    (h2 : ∀ x, π (key_f x) = key_c x)
    (h3 : ∀ k v, (rebuild_f k v).total_sales = v)
    (l : List FRow) :
    groupbySum key_c rebuild_c (groupbySum key_f rebuild_f l)
      = groupbySum key_c rebuild_c l := by
  have hkeys : ((groupbySum key_f rebuild_f l).map key_c).dedup = ((l.map key_c).dedup) := by
    rw [groupbySum, List.map_map]
    have hπ : ∀ k ∈ (l.map key_f).dedup,
        (key_c ∘ fun k => rebuild_f k (sumSales (l.filter fun r => key_f r = k))) k = π k :=
      fun k _ => h1 _ _
    rw [List.map_congr_left hπ, dedup_map_dedup π (l.map key_f), List.map_map]
    have hπ2 : ∀ x ∈ l, (π ∘ key_f) x = key_c x := fun x _ => h2 x
    rw [List.map_congr_left hπ2]
  have hfib : ∀ k : κc,
      sumSales ((groupbySum key_f rebuild_f l).filter fun r => key_c r = k)
        = sumSales (l.filter fun x => key_c x = k) := by
    intro k
    rw [groupbySum, filter_map_comm]
    simp only [h1]
    rw [sumSales, List.map_map]
    have hval : ∀ kf ∈ ((l.map key_f).dedup).filter fun kf => decide (π kf = k),
        (FRow.total_sales ∘ fun kf => rebuild_f kf (sumSales (l.filter fun r => key_f r = kf))) kf
          = (fun kf => ((l.filter fun r => key_f r = kf).map FRow.total_sales).sum) kf := by
      intro kf _
      simp only [Function.comp]
      rw [h3]
      rfl
    rw [List.map_congr_left hval]
    have hsf := sum_fibers key_f FRow.total_sales (fun kf => decide (π kf = k))
      (((l.map key_f).dedup).filter fun kf => decide (π kf = k))
      ((List.nodup_dedup _).filter _)
      l
      (fun kf hkf => (List.mem_filter.mp hkf).2)
      (by
        intro x hx hpx
        exact List.mem_filter.mpr
          ⟨List.mem_dedup.mpr (List.mem_map_of_mem key_f hx), hpx⟩)
    rw [hsf]
    have hfc : (l.filter fun x => decide (π (key_f x) = k))
        = l.filter fun x => decide (key_c x = k) :=
      List.filter_congr (fun x _ => by rw [h2])
    rw [hfc]
    rfl
  rw [groupbySum, hkeys]
  conv_rhs => rw [groupbySum]
  apply List.map_congr_left
  intro k _
  simp only [hfib]

lemma filteredAgg_eq_phases (df : List SalesRow) (s e : Int) (c p : String) :
    filteredAgg df s e c p
      = countryPhase c (productlinePhase p (groupAllKeys (dropOrderdate (dateRangeFilter df s e)))) :=
  rfl

lemma collapse32 (l : List FRow) :
    groupbySum key2 rebuild2 (groupbySum key3 rebuild3 l) = groupbySum key2 rebuild2 l :=
  groupbySum_groupbySum key3 rebuild3 key2 rebuild2 (fun k => (k.2.1, k.2.2))
    (fun _ _ => rfl) (fun _ => rfl) (fun _ _ => rfl) l

lemma collapse31 (l : List FRow) :
    groupbySum key1 rebuild1 (groupbySum key3 rebuild3 l) = groupbySum key1 rebuild1 l :=
  groupbySum_groupbySum key3 rebuild3 key1 rebuild1 (fun k => k.2.1)
    (fun _ _ => rfl) (fun _ => rfl) (fun _ _ => rfl) l

lemma collapse21 (l : List FRow) :
    groupbySum key1 rebuild1 (groupbySum key2 rebuild2 l) = groupbySum key1 rebuild1 l :=
  groupbySum_groupbySum key2 rebuild2 key1 rebuild1 (fun k => k.1)
    (fun _ _ => rfl) (fun _ => rfl) (fun _ _ => rfl) l

lemma filter_pl_group3 (p : String) (l : List FRow) :
    (groupbySum key3 rebuild3 l).filter (fun r => r.productline = some p)
      = groupbySum key3 rebuild3 (l.filter fun r => r.productline = some p) :=
  filter_groupbySum key3 rebuild3 _ (fun k => decide (k.1 = some p))
    (fun _ _ => rfl) (fun _ => rfl) l

lemma filter_c_group2 (c : String) (l : List FRow) :
    (groupbySum key2 rebuild2 l).filter (fun r => r.country = some c)
      = groupbySum key2 rebuild2 (l.filter fun r => r.country = some c) :=
  filter_groupbySum key2 rebuild2 _ (fun k => decide (k.2 = some c))
    (fun _ _ => rfl) (fun _ => rfl) l

lemma filteredAgg_pl_c (df : List SalesRow) (s e : Int) {c p : String}
    (hp : p ≠ "ALL") (hc : c ≠ "ALL") :
    filteredAgg df s e c p
      = ((groupbySum key3 rebuild3 (dropOrderdate (dateRangeFilter df s e))).filter
          (fun r => r.productline = some p)).filter (fun r => r.country = some c) := by
  rw [filteredAgg_eq_phases, productlinePhase, countryPhase, if_pos hp, if_pos hc, groupAllKeys]

lemma filteredAgg_pl_allc (df : List SalesRow) (s e : Int) {p : String} (hp : p ≠ "ALL") :
    filteredAgg df s e "ALL" p
      = groupbySum key1 rebuild1 ((dropOrderdate (dateRangeFilter df s e)).filter
          fun r => r.productline = some p) := by
  rw [filteredAgg_eq_phases, productlinePhase, countryPhase, if_pos hp, if_neg (by simp),
    groupAllKeys, filter_pl_group3, collapse31]

lemma filteredAgg_allpl_c (df : List SalesRow) (s e : Int) {c : String} (hc : c ≠ "ALL") :
    filteredAgg df s e c "ALL"
      = groupbySum key2 rebuild2 ((dropOrderdate (dateRangeFilter df s e)).filter
          fun r => r.country = some c) := by
  rw [filteredAgg_eq_phases, productlinePhase, countryPhase, if_pos hc,
    if_neg (show ¬ ("ALL" ≠ "ALL") by simp), groupAllKeys, collapse32, filter_c_group2]

lemma filteredAgg_all_all (df : List SalesRow) (s e : Int) :
    filteredAgg df s e "ALL" "ALL"
      = groupbySum key1 rebuild1 (dropOrderdate (dateRangeFilter df s e)) := by
  rw [filteredAgg_eq_phases, productlinePhase, countryPhase, if_neg (by simp), if_neg (by simp),
    groupAllKeys, collapse32, collapse21]

lemma total_eq_selMatch_sum (df : List SalesRow) (s e : Int) (c p : String) (r : FRow)
    (hr : r ∈ filteredAgg df s e c p) :
    r.total_sales = sumRows ((dateRangeFilter df s e).filter (selMatch p c r)) := by
  by_cases hp : p = "ALL"
  · by_cases hc : c = "ALL"
    · subst hp; subst hc
      rw [filteredAgg_all_all] at hr
      obtain ⟨htot, -⟩ := total_of_mem_groupbySum (fun _ _ => rfl) (fun _ _ => rfl) hr
      rw [htot, dropOrderdate, filter_map_comm, sumSales_map_toFRow]
      congr 1
      apply List.filter_congr
      intro y _
      by_cases h1 : y.productname = r.productname <;> simp [selMatch, key1, toFRow, h1]
    · subst hp
      rw [filteredAgg_allpl_c df s e hc] at hr
      have hrc : r.country = some c := by
        obtain ⟨k, hk, hre⟩ := mem_groupbySum.mp hr
        obtain ⟨x, hx, hxe⟩ := List.mem_map.mp (List.mem_dedup.mp hk)
        have hxc : x.country = some c := by
          have h2 := (List.mem_filter.mp hx).2
          simpa using h2
        rw [hre]
        show k.2 = some c
        rw [← hxe]
        exact hxc
      obtain ⟨htot, -⟩ := total_of_mem_groupbySum (fun _ _ => rfl) (fun _ _ => rfl) hr
      rw [htot, List.filter_filter, dropOrderdate, filter_map_comm, sumSales_map_toFRow]
      congr 1
      apply List.filter_congr
      intro y _
      by_cases h1 : y.productname = r.productname <;> by_cases h2 : y.country = c <;>
        simp [selMatch, key2, toFRow, h1, h2, hrc, hc, Prod.ext_iff]
  · by_cases hc : c = "ALL"
    · subst hc
      rw [filteredAgg_pl_allc df s e hp] at hr
      obtain ⟨htot, -⟩ := total_of_mem_groupbySum (fun _ _ => rfl) (fun _ _ => rfl) hr
      rw [htot, List.filter_filter, dropOrderdate, filter_map_comm, sumSales_map_toFRow]
      congr 1
      apply List.filter_congr
      intro y _
      by_cases h1 : y.productname = r.productname <;> by_cases h2 : y.productline = p <;>
        simp [selMatch, key1, toFRow, h1, h2, hp]
    · rw [filteredAgg_pl_c df s e hp hc] at hr
      have hr1 := List.mem_filter.mp hr
      have hrc : r.country = some c := by simpa using hr1.2
      have hr2 := List.mem_filter.mp hr1.1
      have hrp : r.productline = some p := by simpa using hr2.2
      obtain ⟨htot, -⟩ := total_of_mem_groupbySum (fun _ _ => rfl) (fun _ _ => rfl) hr2.1
      rw [htot, dropOrderdate, filter_map_comm, sumSales_map_toFRow]
      congr 1
      apply List.filter_congr
      intro y _
      by_cases h1 : y.productname = r.productname <;> by_cases h2 : y.productline = p <;>
        by_cases h3 : y.country = c <;>
        simp [selMatch, key3, toFRow, h1, h2, h3, hp, hc, hrp, hrc, Prod.ext_iff]

lemma mem_filteredAgg_of_mem_plotData {df : List SalesRow} {s e : Int} {c p : String}
    {n : Nat} {rows : List FRow} {r : FRow}
    (h : plotData df s e c p n = some rows) (hr : r ∈ rows) :
    r ∈ filteredAgg df s e c p := by
  unfold plotData at h
  by_cases he : (filteredAgg df s e c p).isEmpty
  · simp [he] at h
  · simp only [he, if_false, Option.some.injEq, ite_false, Bool.false_eq_true] at h
    subst h
    have hmem : r ∈ sortSales (filteredAgg df s e c p) := List.take_subset n _ hr
    exact ((List.perm_insertionSort _ _).mem_iff).mp hmem

lemma productname_nodup_filteredAgg (df : List SalesRow) (s e : Int) (c p : String) :
    ((filteredAgg df s e c p).map FRow.productname).Nodup := by
  by_cases hp : p = "ALL"
  · by_cases hc : c = "ALL"
    · subst hp; subst hc
      rw [filteredAgg_all_all]
      have hmk := map_key_groupbySum key1 rebuild1 (fun _ _ => rfl)
        (dropOrderdate (dateRangeFilter df s e))
      have h1 : (groupbySum key1 rebuild1 (dropOrderdate (dateRangeFilter df s e))).map
            FRow.productname
          = (groupbySum key1 rebuild1 (dropOrderdate (dateRangeFilter df s e))).map key1 :=
        List.map_congr_left fun r _ => rfl
      rw [h1, hmk]
      exact List.nodup_dedup _
    · subst hp
      rw [filteredAgg_allpl_c df s e hc]
      have hmk := map_key_groupbySum key2 rebuild2 (fun _ _ => rfl)
        ((dropOrderdate (dateRangeFilter df s e)).filter fun r => r.country = some c)
      have hnd : ((groupbySum key2 rebuild2
            ((dropOrderdate (dateRangeFilter df s e)).filter fun r =>
              r.country = some c)).map key2).Nodup := by
        rw [hmk]
        exact List.nodup_dedup _
      have hsnd : ∀ k ∈ (groupbySum key2 rebuild2
            ((dropOrderdate (dateRangeFilter df s e)).filter fun r =>
              r.country = some c)).map key2, k.2 = some c := by
        intro k hk
        rw [hmk] at hk
        obtain ⟨x, hx, hxe⟩ := List.mem_map.mp (List.mem_dedup.mp hk)
        have hxc : x.country = some c := by
          have h2 := (List.mem_filter.mp hx).2
          simpa using h2
        rw [← hxe]
        exact hxc
      have h1 : (groupbySum key2 rebuild2
            ((dropOrderdate (dateRangeFilter df s e)).filter fun r =>
              r.country = some c)).map FRow.productname
          = ((groupbySum key2 rebuild2
              ((dropOrderdate (dateRangeFilter df s e)).filter fun r =>
                r.country = some c)).map key2).map Prod.fst := by
        rw [List.map_map]
        exact List.map_congr_left fun r _ => rfl
      rw [h1]
      apply List.Nodup.map_on _ hnd
      intro x hx y hy hxy
      have h2 : x.2 = y.2 := by rw [hsnd x hx, hsnd y hy]
      exact Prod.ext hxy h2
  · by_cases hc : c = "ALL"
    · subst hc
      rw [filteredAgg_pl_allc df s e hp]
      have hmk := map_key_groupbySum key1 rebuild1 (fun _ _ => rfl)
        ((dropOrderdate (dateRangeFilter df s e)).filter fun r => r.productline = some p)
      have h1 : (groupbySum key1 rebuild1
            ((dropOrderdate (dateRangeFilter df s e)).filter fun r =>
              r.productline = some p)).map FRow.productname
          = (groupbySum key1 rebuild1
              ((dropOrderdate (dateRangeFilter df s e)).filter fun r =>
                r.productline = some p)).map key1 :=
        List.map_congr_left fun r _ => rfl
      rw [h1, hmk]
      exact List.nodup_dedup _
    · rw [filteredAgg_pl_c df s e hp hc]
      have hndk : ((groupbySum key3 rebuild3
            (dropOrderdate (dateRangeFilter df s e))).map key3).Nodup := by
        rw [map_key_groupbySum key3 rebuild3 (fun _ _ => rfl)]
        exact List.nodup_dedup _
      have hg3nd : (groupbySum key3 rebuild3 (dropOrderdate (dateRangeFilter df s e))).Nodup :=
        List.Nodup.of_map key3 hndk
      have hfrnd : (((groupbySum key3 rebuild3 (dropOrderdate (dateRangeFilter df s e))).filter
            (fun r => r.productline = some p)).filter fun r => r.country = some c).Nodup :=
        hg3nd.sublist ((List.filter_sublist _).trans (List.filter_sublist _))
      apply List.Nodup.map_on _ hfrnd
      intro x hx y hy hxy
      have hx1 := List.mem_filter.mp hx
      have hxc : x.country = some c := by simpa using hx1.2
      have hx2 := List.mem_filter.mp hx1.1
      have hxp : x.productline = some p := by simpa using hx2.2
      have hy1 := List.mem_filter.mp hy
      have hyc : y.country = some c := by simpa using hy1.2
      have hy2 := List.mem_filter.mp hy1.1
      have hyp : y.productline = some p := by simpa using hy2.2
      have hkey : key3 x = key3 y := by
        rw [key3, key3, hxp, hyp, hxc, hyc, hxy]
      obtain ⟨hx3, hx4⟩ := total_of_mem_groupbySum (fun _ _ => rfl) (fun _ _ => rfl) hx2.1
      obtain ⟨hy3, hy4⟩ := total_of_mem_groupbySum (fun _ _ => rfl) (fun _ _ => rfl) hy2.1
      have hxe : x = rebuild3 (key3 x)
          (sumSales ((dropOrderdate (dateRangeFilter df s e)).filter fun z =>
            key3 z = key3 x)) := hx4.trans (congrArg _ hx3)
      have hye : y = rebuild3 (key3 y)
          (sumSales ((dropOrderdate (dateRangeFilter df s e)).filter fun z =>
            key3 z = key3 y)) := hy4.trans (congrArg _ hy3)
      rw [hxe, hye, hkey]

lemma dateRangeFilter_eq_nil_of_inverted {df : List SalesRow} {s e : Int} (h : e < s) :
    dateRangeFilter df s e = [] := by
  rw [dateRangeFilter, List.filter_eq_nil_iff]
  intro a _ hcon
  simp only [Bool.and_eq_true, decide_eq_true_eq] at hcon
  omega

lemma filteredAgg_eq_nil_of_dateFilter_nil {df : List SalesRow} {s e : Int} (c p : String)
    (h : dateRangeFilter df s e = []) : filteredAgg df s e c p = [] := by
  rw [filteredAgg_eq_phases, h]
  simp [dropOrderdate, groupAllKeys, groupbySum, productlinePhase, countryPhase, ite_self]

lemma plot_top_n_sales_empty {plotCall : List FRow → Except String Unit}
    {df : List SalesRow} {s e : Int} {c p : String} {n : Nat}
    (h : filteredAgg df s e c p = []) :
    plot_top_n_sales plotCall df s e c p n = Output.printed (noSalesMessage p c) := by
  unfold plot_top_n_sales
  simp [h]

/-- C1: every row handed to the plotting step by `plot_top_n_sales` draws its
total exclusively from the date-filtered rows: its `total_sales` equals the sum
of `total_sales` over exactly the input rows whose `orderdate` lies in
`[start_date, end_date]` (both endpoints inclusive) and which match the row's
product name and the widget selections. -/
theorem claim_C1_plotted_totals (df : List SalesRow) (s e : Int)
    (country productline : String) (top_n : Nat) (rows : List FRow) (r : FRow)
    (h1 : plotData df s e country productline top_n = some rows) (h2 : r ∈ rows) :
    r.total_sales = sumRows ((dateRangeFilter df s e).filter (selMatch productline country r)) :=
  total_eq_selMatch_sum df s e country productline r (mem_filteredAgg_of_mem_plotData h1 h2)

/-- Witness for C1 at the worked example: the single plotted row `("P1", 100)`
has total 100, the sum over the in-range rows. -/
theorem claim_C1_witness :
    ({ productline := none, productname := "P1", country := none,
        total_sales := 100 } : FRow).total_sales
      = sumRows ((dateRangeFilter exampleDf 20240101 20240131).filter
          (selMatch "Motorcycles" "ALL"
            { productline := none, productname := "P1", country := none,
              total_sales := 100 })) :=
  claim_C1_plotted_totals exampleDf 20240101 20240131 "ALL" "Motorcycles" 5
    [{ productline := none, productname := "P1", country := none, total_sales := 100 }]
    { productline := none, productname := "P1", country := none, total_sales := 100 }
    (by decide) (by decide)

/-- C2: selecting `productline = "ALL"` yields the date-filtered rows
re-aggregated across all product lines for the chosen country (the
product-line grouping key dropped and `total_sales` re-summed); selecting
`country = "ALL"` yields rows aggregated across all countries; with both
`"ALL"` the result is one row per product name summed over all product lines
and countries. -/
theorem claim_C2_all_aggregation (df : List SalesRow) (s e : Int) :
    (∀ c, c ≠ "ALL" → filteredAgg df s e c "ALL"
        = specAggAcrossProductLines (dateRangeFilter df s e) c) ∧
    (∀ p, p ≠ "ALL" → filteredAgg df s e "ALL" p
        = specAggAcrossCountries (dateRangeFilter df s e) p) ∧
    filteredAgg df s e "ALL" "ALL" = specAggAllProducts (dateRangeFilter df s e) := by
  refine ⟨fun c hc => ?_, fun p hp => ?_, ?_⟩
  · rw [filteredAgg_allpl_c df s e hc, specAggAcrossProductLines, filter_c_group2, dropOrderdate]
  · rw [filteredAgg_pl_allc df s e hp, specAggAcrossCountries, dropOrderdate]
  · rw [filteredAgg_all_all, specAggAllProducts, dropOrderdate]

/-- Witness for C2 at the worked example, for the chosen country `"USA"` and
the chosen product line `"Motorcycles"`. -/
theorem claim_C2_witness :
    filteredAgg exampleDf 20240101 20240301 "USA" "ALL"
      = specAggAcrossProductLines (dateRangeFilter exampleDf 20240101 20240301) "USA" ∧
    filteredAgg exampleDf 20240101 20240301 "ALL" "Motorcycles"
      = specAggAcrossCountries (dateRangeFilter exampleDf 20240101 20240301) "Motorcycles" :=
  ⟨(claim_C2_all_aggregation exampleDf 20240101 20240301).1 "USA" (by decide),
   (claim_C2_all_aggregation exampleDf 20240101 20240301).2.1 "Motorcycles" (by decide)⟩

/-- C3: the number of rows handed to the bar plot equals
`min top_n (number of distinct product names in the filtered-and-aggregated
result)`; in particular it never exceeds `top_n`. -/
theorem claim_C3_top_n_bound (df : List SalesRow) (s e : Int)
    (country productline : String) (top_n : Nat) (rows : List FRow)
    (h1 : 1 ≤ top_n) (h2 : top_n ≤ 10)
    (h3 : plotData df s e country productline top_n = some rows) :
    rows.length = min top_n (distinctProductCount (filteredAgg df s e country productline)) ∧
    rows.length ≤ top_n := by
  unfold plotData at h3
  by_cases he : (filteredAgg df s e country productline).isEmpty
  · simp [he] at h3
  · simp only [he, ite_false, Option.some.injEq, Bool.false_eq_true] at h3
    subst h3
    constructor
    · rw [List.length_take]
      congr 1
      rw [distinctProductCount]
      have hperm := List.perm_insertionSort (fun a b : FRow => b.total_sales ≤ a.total_sales)
        (filteredAgg df s e country productline)
      rw [sortSales, hperm.length_eq]
      have hnd := productname_nodup_filteredAgg df s e country productline
      rw [List.Nodup.dedup hnd, List.length_map]
    · rw [List.length_take]
      exact min_le_left _ _

/-- Witness for C3 at the worked example: one row is plotted and
`1 = min 5 1`. -/
theorem claim_C3_witness :
    ([{ productline := none, productname := "P1", country := none,
        total_sales := 100 }] : List FRow).length
      = min 5 (distinctProductCount (filteredAgg exampleDf 20240101 20240131 "ALL" "Motorcycles")) ∧
    ([{ productline := none, productname := "P1", country := none,
        total_sales := 100 }] : List FRow).length ≤ 5 :=
  claim_C3_top_n_bound exampleDf 20240101 20240131 "ALL" "Motorcycles" 5
    [{ productline := none, productname := "P1", country := none, total_sales := 100 }]
    (by decide) (by decide) (by decide)

/-- C4: on the spec's worked example — rows
`(2024-01-01, Motorcycles, P1, USA, 100)` and
`(2024-02-01, Motorcycles, P1, France, 50)`, dates `2024-01-01..2024-01-31`,
`country = "ALL"`, `productline = "Motorcycles"`, `top_n = 5` — the
filter-and-aggregate pipeline produces exactly the single row `("P1", 100)`,
and that row is what is handed to the plot. -/
theorem claim_C4_worked_example :
    filteredAgg exampleDf 20240101 20240131 "ALL" "Motorcycles"
      = [{ productline := none, productname := "P1", country := none, total_sales := 100 }] ∧
    plotData exampleDf 20240101 20240131 "ALL" "Motorcycles" 5
      = some [{ productline := none, productname := "P1", country := none,
                total_sales := 100 }] := by
  constructor <;> decide

/-- C5: the transformation of `plot_top_n_sales` is exactly the sequential
cascade date-range filter → product-line filter/aggregate → country
filter/aggregate → sort descending by `total_sales` → take `top_n` → plot,
with nothing else affecting the plotted data: the statement-by-statement
transcription `filteredAgg` coincides with the composition of the named
phases, and the plotted frame and printed output are determined by it as
stated. -/
theorem claim_C5_sequential_cascade (plotCall : List FRow → Except String Unit)
    (df : List SalesRow) (s e : Int) (c p : String) (n : Nat) :
    filteredAgg df s e c p
      = countryPhase c (productlinePhase p
          (groupAllKeys (dropOrderdate (dateRangeFilter df s e)))) ∧
    plotData df s e c p n
      = (if (filteredAgg df s e c p).isEmpty then none
         else some ((sortSales (filteredAgg df s e c p)).take n)) ∧
    plot_top_n_sales plotCall df s e c p n
      = (if (filteredAgg df s e c p).isEmpty then Output.printed (noSalesMessage p c)
         else
           match plotCall ((sortSales (filteredAgg df s e c p)).take n) with
           | Except.ok _ => Output.plot ((sortSales (filteredAgg df s e c p)).take n)
           | Except.error _ => Output.printed "error") := by
  refine ⟨rfl, rfl, ?_⟩
  unfold plot_top_n_sales
  by_cases he : (filteredAgg df s e c p).isEmpty <;> simp [he]

/-- C6: an exception of the plotting call is swallowed by the blanket guard —
the function still returns, printing the static string `"error"` — and an
empty filtered result leads to no plot at all, only the no-sales message
naming the selected product line and country. -/
theorem claim_C6_error_handling (plotCall : List FRow → Except String Unit)
    (df : List SalesRow) (s e : Int) (c p : String) (n : Nat) :
    (filteredAgg df s e c p ≠ [] →
      ∀ msg, plotCall ((sortSales (filteredAgg df s e c p)).take n) = Except.error msg →
        plot_top_n_sales plotCall df s e c p n = Output.printed "error") ∧
    (filteredAgg df s e c p = [] →
      plot_top_n_sales plotCall df s e c p n = Output.printed (noSalesMessage p c) ∧
      ∀ rows, plot_top_n_sales plotCall df s e c p n ≠ Output.plot rows) := by
  constructor
  · intro hne msg herr
    unfold plot_top_n_sales
    have he : (filteredAgg df s e c p).isEmpty = false := by
      simpa [List.isEmpty_iff] using hne
    simp [he, herr]
  · intro hnil
    have h1 := @plot_top_n_sales_empty plotCall df s e c p n hnil
    refine ⟨h1, fun rows hcon => ?_⟩
    rw [h1] at hcon
    exact Output.noConfusion hcon

/-- Witness for C6: a failing plot call on the worked example prints
`"error"`, and a selection with no sales prints the no-sales message. -/
theorem claim_C6_witness :
    plot_top_n_sales (fun _ => Except.error "boom") exampleDf 20240101 20240131
        "ALL" "Motorcycles" 5 = Output.printed "error" ∧
    plot_top_n_sales (fun _ => Except.ok ()) exampleDf 20240101 20240131
        "USA" "Trains" 5 = Output.printed (noSalesMessage "Trains" "USA") :=
  ⟨(claim_C6_error_handling (fun _ => Except.error "boom") exampleDf 20240101 20240131
      "ALL" "Motorcycles" 5).1 (by decide) "boom" rfl,
   ((claim_C6_error_handling (fun _ => Except.ok ()) exampleDf 20240101 20240131
      "USA" "Trains" 5).2 (by decide)).1⟩

/-- Counterexample to C7 as stated: the `widgets.interact` cell declares five
widgets, not four. -/
theorem claim_C7_counterexample : ¬ ((dashboardWidgets exampleDf).length = 4) := by
  decide

/-- C7 amended: the UI surface consists of exactly five widgets — a start-date
picker, an end-date picker, a country dropdown, a product-line dropdown, and
an integer slider constrained to 1..10 — driving the single plot output of
`plot_top_n_sales`. -/
theorem claim_C7_amended (df : List SalesRow) :
    (dashboardWidgets df).length = 5 ∧
    (dashboardWidgets df)[0]? = some (Widget.datePicker "Start Date") ∧
    (dashboardWidgets df)[1]? = some (Widget.datePicker "End Date") ∧
    (dashboardWidgets df)[2]?
      = some (Widget.dropdown ("ALL" :: sortedUnique (df.map SalesRow.country))
          "ALL" "Country") ∧
    (dashboardWidgets df)[3]?
      = some (Widget.dropdown ("ALL" :: sortedUnique (df.map SalesRow.productline))
          "ALL" "Product Line") ∧
    (dashboardWidgets df)[4]? = some (Widget.intSlider 5 1 10 1 "Top N") :=
  ⟨rfl, rfl, rfl, rfl, rfl, rfl⟩

/-- C8: the declared IaC resources fix the crawler source path
`s3://<data_lake_bucket>/gold`, the five ETL job default arguments, the
5-minute job timeout, and 2 workers of type G.1X. -/
theorem claim_C8_iac_constants (project scripts_bucket scripts_key data_lake_bucket : String) :
    (s3_crawler project data_lake_bucket).s3_target_path
      = "s3://" ++ data_lake_bucket ++ "/gold" ∧
    (etl_job project scripts_bucket scripts_key data_lake_bucket).default_arguments.map Prod.fst
      = ["--enable-job-insights", "--job-language", "--glue_connection",
         "--glue_database", "--target_path"] ∧
    (etl_job project scripts_bucket scripts_key data_lake_bucket).timeout = 5 ∧
    (etl_job project scripts_bucket scripts_key data_lake_bucket).number_of_workers = 2 ∧
    (etl_job project scripts_bucket scripts_key data_lake_bucket).worker_type = "G.1X" :=
  ⟨rfl, rfl, rfl, rfl, rfl⟩

/-- C9: a call of `plot_top_n_sales` leaves the global `product_sales_df`
unchanged — every pandas step it performs returns a new frame — so a later
invocation with any selection starts from the same underlying data and
produces the same output as if it ran first. -/
theorem claim_C9_no_frame_mutation (st : NotebookState)
    (plotCall1 plotCall2 : List FRow → Except String Unit)
    (s e : Int) (c p : String) (n : Nat)
    (s' e' : Int) (c' p' : String) (n' : Nat) :
    (runDashboard st plotCall1 s e c p n).1 = st ∧
    (runDashboard (runDashboard st plotCall1 s e c p n).1 plotCall2 s' e' c' p' n').2
      = (runDashboard st plotCall2 s' e' c' p' n').2 :=
  ⟨rfl, rfl⟩

/-- C10: an inverted date range (or any range covering no rows) empties the
filtered frame, so no plot is attempted and the no-sales message is printed —
it is never an error. -/
theorem claim_C10_inverted_range (plotCall : List FRow → Except String Unit)
    (df : List SalesRow) (s e : Int) (c p : String) (n : Nat)
    (h : e < s ∨ dateRangeFilter df s e = []) :
    filteredAgg df s e c p = [] ∧
    plot_top_n_sales plotCall df s e c p n = Output.printed (noSalesMessage p c) := by
  have hnil : dateRangeFilter df s e = [] := h.elim dateRangeFilter_eq_nil_of_inverted id
  have hagg := filteredAgg_eq_nil_of_dateFilter_nil c p hnil
  exact ⟨hagg, plot_top_n_sales_empty hagg⟩

/-- Witness for C10 with the inverted range `2024-02-01 .. 2024-01-01`. -/
theorem claim_C10_witness :
    filteredAgg exampleDf 20240201 20240101 "ALL" "ALL" = [] ∧
    plot_top_n_sales (fun _ => Except.ok ()) exampleDf 20240201 20240101 "ALL" "ALL" 5
      = Output.printed (noSalesMessage "ALL" "ALL") :=
  claim_C10_inverted_range (fun _ => Except.ok ()) exampleDf 20240201 20240101 "ALL" "ALL" 5
    (Or.inl (by decide))
